import Mathlib

/-!
Verification of the compress_video repository core:
strategy decisions (src/strategy.py), the size gate (src/encode.py),
the NAS claim store (src/claim.py), and the per-file orchestrator loops
(src/compress_v2.py cmd_run, src/compress_v3.py _process_work_item).

Machine integers are modelled as Nat; Python float arithmetic in the
size-gate computation is modelled exactly over the rationals.
-/

namespace Compress

/-! ## Strategy engine (src/strategy.py) -/

/-- Models the Python str.lower() calls of strategy.py character by
character (the codec names and extensions involved are ASCII). -/
def str_lower (s : String) : String := String.mk (s.data.map Char.toLower)

/-- Models the Python str.startswith prefix test used by compress_v3 to
recognize the skip actions, at the character-list level. -/
def starts_with (p s : String) : Bool := p.data.isPrefixOf s.data

/-- Embeds strategy.is_4k.  Python: `if not width or not height: return False;
return min(width, height) > 1080`.  Falsy width/height means zero. -/
def is_4k (width height : Nat) : Bool :=
  if width = 0 || height = 0 then false
  else decide (1080 < min width height)

/-- Embeds strategy.is_portrait.  Python: `if not width or not height:
return False; return height > width`. -/
def is_portrait (width height : Nat) : Bool :=
  if width = 0 || height = 0 then false
  else decide (width < height)

/-- Embeds strategy.get_scale_filter. -/
def get_scale_filter (width height : Nat) : String :=
  if is_portrait width height then "scale=1080:-2" else "scale=-2:1080"

/-- The dict returned by strategy.decide_action. -/
structure Decision where
  action : String
  target_cq : Option Nat
  downscale_1080p : Bool
  size_gate : Bool
  reason : String
deriving DecidableEq

/-- Embeds strategy.decide_action (strategy v3 policy table).  The Python
f-string numeric formatting inside the reason text is rendered with toString;
nothing in the development inspects reason. -/
def decide_action (codec : String) (bitrate : Nat) (width height : Nat)
    (has_v2_tag : Bool) (ext : String) : Decision :=
  if has_v2_tag then
    { action := "skip_tagged", target_cq := none, downscale_1080p := false,
      size_gate := false, reason := "Already compressed with v2" }
  else
    let codec_lower := str_lower codec
    let bitrate_mbps : ℚ := (bitrate : ℚ) / 1000000
    let mp4 := str_lower ext == ".mp4"
    if !mp4 then
      if is_4k width height then
        { action := "encode", target_cq := some 26, downscale_1080p := true,
          size_gate := false,
          reason := "Non-MP4 4K " ++ toString width ++ "x" ++ toString height
            ++ " -> encode + downscale" }
      else if codec_lower == "hevc" || codec_lower == "av1" then
        { action := "remux", target_cq := none, downscale_1080p := false,
          size_gate := false,
          reason := "Non-MP4 " ++ codec_lower.toUpper ++ " -> remux to MP4" }
      else
        let cq : Nat := if codec_lower != "vp9" then 28 else 30
        { action := "encode", target_cq := some cq, downscale_1080p := false,
          size_gate := false,
          reason := "Non-MP4 " ++ codec_lower ++ " -> encode to HEVC MP4" }
    else if is_4k width height then
      { action := "encode", target_cq := some 26, downscale_1080p := true,
        size_gate := true,
        reason := "4K " ++ toString width ++ "x" ++ toString height
          ++ " -> downscale to 1080p" }
    else if codec_lower == "h264" then
      if 2 ≤ bitrate_mbps then
        { action := "encode", target_cq := some 28, downscale_1080p := false,
          size_gate := true, reason := "H.264 at " ++ toString bitrate_mbps ++ " Mbps (high)" }
      else if 1/2 ≤ bitrate_mbps then
        { action := "encode", target_cq := some 30, downscale_1080p := false,
          size_gate := true, reason := "H.264 at " ++ toString bitrate_mbps ++ " Mbps (mid)" }
      else
        { action := "skip_tiny", target_cq := none, downscale_1080p := false,
          size_gate := false, reason := "H.264 at " ++ toString bitrate_mbps ++ " Mbps (too low)" }
    else if codec_lower == "hevc" then
      { action := "skip_hevc", target_cq := none, downscale_1080p := false,
        size_gate := false, reason := "Already HEVC MP4, non-4K" }
    else if codec_lower == "av1" then
      { action := "skip_av1", target_cq := none, downscale_1080p := false,
        size_gate := false, reason := "Already AV1 MP4, non-4K" }
    else if codec_lower == "vp9" then
      { action := "encode", target_cq := some 30, downscale_1080p := false,
        size_gate := true, reason := "VP9 -> HEVC" }
    else
      { action := "encode", target_cq := some 28, downscale_1080p := false,
        size_gate := true, reason := codec_lower ++ " -> HEVC" }

/-! ## Size gate (src/encode.py, encode_video) -/

/-- encode.MIN_SAVINGS_PCT = 5.0 -/
def MIN_SAVINGS_PCT : ℚ := 5

/-- `savings_pct = (1 - output_size / input_size) * 100 if input_size > 0 else 0`
from encode.encode_video, computed exactly over the rationals. -/
def savingsPct (input_size output_size : Nat) : ℚ :=
  if 0 < input_size then (1 - (output_size : ℚ) / (input_size : ℚ)) * 100 else 0

/-- The result dict of encode.encode_video on paths where ffmpeg succeeded. -/
structure EncodeResult where
  success : Bool
  passed_size_gate : Bool
  output_size : Nat
  savings_pct : ℚ
deriving DecidableEq

/-- Embeds the tail of encode.encode_video: given that ffmpeg succeeded and
produced a temp artifact of output_size bytes, apply the size-gate check
`if size_gate and savings_pct < MIN_SAVINGS_PCT` and report the result dict.
On gate rejection the temp artifact is discarded (modelled in the
orchestrator state below). -/
def encode_video (input_size output_size : Nat) (size_gate : Bool) : EncodeResult :=
  if size_gate && decide (savingsPct input_size output_size < MIN_SAVINGS_PCT) then
    { success := true, passed_size_gate := false,
      output_size := output_size, savings_pct := savingsPct input_size output_size }
  else
    { success := true, passed_size_gate := true,
      output_size := output_size, savings_pct := savingsPct input_size output_size }

/-! ## Claim store (src/claim.py)

One marker file per sha256 of the absolute path; since the hash is applied
uniformly to the path, the store is modelled keyed by the path itself.
The set of existing marker files is a finite set of keys. -/

abbrev ClaimStore := Finset String

/-- Embeds claim.claim_file: atomic create-if-absent (O_CREAT exclusive);
returns true and creates the marker only when the marker was absent. -/
def claim_file (s : ClaimStore) (path : String) : Bool × ClaimStore :=
  if path ∈ s then (false, s) else (true, insert path s)

/-- Embeds claim.is_claimed: existence check on the marker. -/
def is_claimed (s : ClaimStore) (path : String) : Bool :=
  decide (path ∈ s)

/-- Embeds claim.release_claim: delete the marker, swallowing
FileNotFoundError (deleting an absent marker is a no-op, not an error). -/
def release_claim (s : ClaimStore) (path : String) : ClaimStore :=
  s.erase path

/-- Operations other actors can perform on the claim directory. -/
inductive ClaimOp where
  | claimOf (path : String)
  | releaseOf (path : String)
deriving DecidableEq

/-- One operation against the store. -/
def runOp (s : ClaimStore) : ClaimOp → ClaimStore
  | .claimOf p => (claim_file s p).2
  | .releaseOf p => release_claim s p

/-- A sequence of operations against the store. -/
def runOps (s : ClaimStore) : List ClaimOp → ClaimStore
  | [] => s
  | op :: rest => runOps (runOp s op) rest

/-! ## Stale-claim recovery (src/claim.py, recover_stale)

A marker file in the claim directory: claimed_at is the parsed timestamp
from the JSON payload, or none when the payload fails to parse (corrupted).
Timestamps are instants on an integer timeline; cutoff = now - max_hours. -/

structure ClaimMarker where
  file : String
  claimed_at : Option Int
deriving DecidableEq

/-- The per-marker staleness test of claim.recover_stale: a parsable marker
is stale when claimed_at < cutoff; an unparsable marker is treated as
corrupted and hence stale regardless of age. -/
def isStale (cutoff : Int) (m : ClaimMarker) : Bool :=
  match m.claimed_at with
  | some t => decide (t < cutoff)
  | none => true

/-- Embeds claim.recover_stale over the list of markers in the directory:
returns (recovered, remaining).  Each stale marker is appended to the
recovered list and, unless dry_run, unlinked; every other marker stays. -/
def recover_stale (cutoff : Int) (dry_run : Bool) :
    List ClaimMarker → List ClaimMarker × List ClaimMarker
  | [] => ([], [])
  | m :: rest =>
      let r := recover_stale cutoff dry_run rest
      if isStale cutoff m then
        (m :: r.1, if dry_run then m :: r.2 else r.2)
      else
        (r.1, m :: r.2)

/-! ## Orchestrator, v2 (src/compress_v2.py, per-item body of cmd_run)

The per-file body of the loop in cmd_run is embedded as a pure function of
the claim store, the local stats counters, the relevant filesystem slots and
an oracle fixing the outcome of every external call.  Ledger writes are
collected in order; a trace of steps records the order of side effects. -/

/-- A ledger mutation: db.update_status or db.log_event (the extra kwargs
and detail payloads are presentation data and are not modelled). -/
inductive DbMut where
  | updateStatus (status : String)
  | logEvent (event : String)
deriving DecidableEq

/-- An observable side-effecting step of one per-file run. -/
inductive Step where
  | claimTry (ok : Bool)
  | db (m : DbMut)
  | encodeRun
  | backupMove (ok : Bool)
  | finalizeRename (ok : Bool)
  | cleanupTemp
  | releaseClaim
deriving DecidableEq

/-- The local stats dict of cmd_run. -/
structure Stats where
  encoded : Nat
  skipped_no_savings : Nat
  failed : Nat
  already_claimed : Nat
deriving DecidableEq

/-- The filesystem slots one per-file run touches.  src is the content at
the original path (which is also the final output path of the in-place
replacement), tmp the hidden temp artifact, backup the mirrored backup
path.  A slot holds the content occupying it, or none. -/
structure FS where
  src : Option String
  tmp : Option String
  backup : Option String
deriving DecidableEq

/-- Outcomes of the external calls made during one per-file run:
whether the file still exists at re-validation, whether ffmpeg exits
cleanly, the stat sizes of input and produced output, and whether the
backup move and the final rename succeed. -/
structure ItemOracle where
  file_exists : Bool
  ffmpeg_ok : Bool
  input_size : Nat
  output_size : Nat
  backup_ok : Bool
  finalize_ok : Bool
deriving DecidableEq

/-- The state after one per-file run of the v2 loop. -/
structure ItemResult where
  claims : ClaimStore
  dbLog : List DbMut
  stats : Stats
  fs : FS
  trace : List Step
deriving DecidableEq

/-- Embeds the per-file body of cmd_run in src/compress_v2.py (lines
210-303): claim, re-validate, encode (encode_video with its default
size_gate=True), size gate, backup move, final rename, with exactly the
ledger writes, claim releases and cleanups of the source on each path.
On size-gate rejection the claim is deliberately not released. -/
def process_item_v2 (claims : ClaimStore) (stats : Stats) (fs : FS)
    (path : String) (o : ItemOracle) : ItemResult :=
  let c := claim_file claims path
  if !c.1 then
    { claims := c.2, dbLog := [], fs := fs,
      stats := { stats with already_claimed := stats.already_claimed + 1 },
      trace := [.claimTry false] }
  else
    let claims := c.2
    let log0 : List DbMut := [.updateStatus "claimed", .logEvent "claimed"]
    let tr0 : List Step :=
      [.claimTry true, .db (.updateStatus "claimed"), .db (.logEvent "claimed")]
    if !o.file_exists then
      { claims := release_claim claims path,
        dbLog := log0 ++ [.updateStatus "failed", .logEvent "failed"],
        stats := { stats with failed := stats.failed + 1 }, fs := fs,
        trace := tr0 ++ [.db (.updateStatus "failed"), .db (.logEvent "failed"),
          .releaseClaim] }
    else
      let log1 := log0 ++ [.updateStatus "encoding", .logEvent "encoding_started"]
      let tr1 := tr0 ++ [.db (.updateStatus "encoding"),
        .db (.logEvent "encoding_started"), .encodeRun]
      if !o.ffmpeg_ok then
        -- encode_video failed and cleaned its own temp artifact
        { claims := release_claim claims path,
          dbLog := log1 ++ [.updateStatus "failed", .logEvent "failed"],
          stats := { stats with failed := stats.failed + 1 },
          fs := { fs with tmp := none },
          trace := tr1 ++ [.cleanupTemp, .db (.updateStatus "failed"),
            .db (.logEvent "failed"), .releaseClaim] }
      else
        let result := encode_video o.input_size o.output_size true
        if !result.passed_size_gate then
          -- encode_video discarded the temp artifact; the claim is kept
          { claims := claims,
            dbLog := log1 ++ [.updateStatus "skipped_no_savings",
              .logEvent "skipped_no_savings"],
            stats := { stats with
              skipped_no_savings := stats.skipped_no_savings + 1 },
            fs := { fs with tmp := none },
            trace := tr1 ++ [.cleanupTemp,
              .db (.updateStatus "skipped_no_savings"),
              .db (.logEvent "skipped_no_savings")] }
        else
          let fs1 : FS := { fs with tmp := some "encoded" }
          if !o.backup_ok then
            -- move_to_backup returned None: abort, clean temp, source intact
            { claims := release_claim claims path,
              dbLog := log1 ++ [.updateStatus "failed", .logEvent "failed"],
              stats := { stats with failed := stats.failed + 1 },
              fs := { fs1 with tmp := none },
              trace := tr1 ++ [.backupMove false, .cleanupTemp,
                .db (.updateStatus "failed"), .db (.logEvent "failed"),
                .releaseClaim] }
          else
            let fs2 : FS := { src := none, tmp := fs1.tmp, backup := fs1.src }
            if !o.finalize_ok then
              -- rename failed after backup; v2 does not clean the temp here
              { claims := release_claim claims path,
                dbLog := log1 ++ [.updateStatus "failed", .logEvent "failed"],
                stats := { stats with failed := stats.failed + 1 },
                fs := fs2,
                trace := tr1 ++ [.backupMove true, .finalizeRename false,
                  .db (.updateStatus "failed"), .db (.logEvent "failed"),
                  .releaseClaim] }
            else
              -- success; v2 does not release the claim on this path either
              { claims := claims,
                dbLog := log1 ++ [.updateStatus "compressed",
                  .logEvent "compressed"],
                stats := { stats with encoded := stats.encoded + 1 },
                fs := { src := fs2.tmp, tmp := none, backup := fs2.backup },
                trace := tr1 ++ [.backupMove true, .finalizeRename true,
                  .db (.updateStatus "compressed"), .db (.logEvent "compressed")] }

/-- Scans a trace left to right: true when no target step occurs before a
guard step has occurred (every target occurrence is strictly preceded by a
guard occurrence). -/
def precededBy (isTarget isGuard : Step → Bool) : List Step → Bool
  | [] => true
  | st :: rest =>
      if isTarget st then false
      else if isGuard st then true
      else precededBy isTarget isGuard rest

/-- Recognizes the final rename step, successful or not. -/
def isFinalizeStep : Step → Bool
  | .finalizeRename _ => true
  | _ => false

/-- Recognizes a successful backup move. -/
def isBackupOkStep : Step → Bool
  | .backupMove true => true
  | _ => false

/-! ## Orchestrator, v3 (src/compress_v3.py, _process_work_item) -/

/-- The local stats counters of compress_v3. -/
structure StatsV3 where
  skipped : Nat
  failed : Nat
  already_claimed : Nat
  remuxed : Nat
  skip_no_savings : Nat
  compressed : Nat
deriving DecidableEq

/-- Filesystem slots for one v3 run: the original path, the temp artifact,
the backup path, the renamed _skip path, and the remux output path. -/
structure FSv3 where
  src : Option String
  tmp : Option String
  backup : Option String
  skipfile : Option String
  remuxout : Option String
deriving DecidableEq

/-- External-call outcomes for one v3 run: existence at re-validation,
whether the post-claim re-probe finds the current encoder tag, ffmpeg
outcome (shared by remux and encode), sizes, rename_skip outcome, backup
move and final rename outcomes. -/
structure ItemOracleV3 where
  file_exists : Bool
  recheck_tag : Bool
  ffmpeg_ok : Bool
  input_size : Nat
  output_size : Nat
  rename_ok : Bool
  backup_ok : Bool
  finalize_ok : Bool
deriving DecidableEq

/-- The state after one _process_work_item run. -/
structure ItemResultV3 where
  claims : ClaimStore
  stats : StatsV3
  fs : FSv3
deriving DecidableEq

/-- Embeds _process_work_item in src/compress_v3.py (lines 127-248):
skip actions rename the file without claiming; remux and encode claim
first, re-validate, re-probe the tag, run the backend, and release the
claim on every completion path, including size-gate rejection (where the
file is renamed to a _skip name first). -/
def process_item_v3 (claims : ClaimStore) (stats : StatsV3) (fs : FSv3)
    (path : String) (decision : Decision) (o : ItemOracleV3) : ItemResultV3 :=
  if starts_with "skip_" decision.action then
    if o.rename_ok then
      { claims := claims, fs := { fs with src := none, skipfile := fs.src },
        stats := { stats with skipped := stats.skipped + 1 } }
    else
      { claims := claims, fs := fs,
        stats := { stats with failed := stats.failed + 1 } }
  else
    let c := claim_file claims path
    if !c.1 then
      { claims := c.2, fs := fs,
        stats := { stats with already_claimed := stats.already_claimed + 1 } }
    else
      let claims := c.2
      if !o.file_exists then
        { claims := release_claim claims path, fs := fs,
          stats := { stats with failed := stats.failed + 1 } }
      else if o.recheck_tag then
        -- another machine already finished this file: release, no counter
        { claims := release_claim claims path, fs := fs, stats := stats }
      else if decision.action == "remux" then
        if !o.ffmpeg_ok then
          { claims := release_claim claims path, fs := fs,
            stats := { stats with failed := stats.failed + 1 } }
        else
          let fs1 : FSv3 := { fs with remuxout := some "remuxed" }
          if !o.backup_ok then
            { claims := release_claim claims path,
              fs := { fs1 with remuxout := none },
              stats := { stats with failed := stats.failed + 1 } }
          else
            { claims := release_claim claims path,
              fs := { fs1 with src := none, backup := fs1.src },
              stats := { stats with remuxed := stats.remuxed + 1 } }
      else
        -- encode path; use_size_gate = decision.get('size_gate', True)
        if !o.ffmpeg_ok then
          { claims := release_claim claims path,
            fs := { fs with tmp := none },
            stats := { stats with failed := stats.failed + 1 } }
        else
          let result := encode_video o.input_size o.output_size decision.size_gate
          if !result.passed_size_gate then
            -- rename original to a _skip name, count it, release the claim
            { claims := release_claim claims path,
              fs := if o.rename_ok then
                  { fs with tmp := none, src := none, skipfile := fs.src }
                else { fs with tmp := none },
              stats := { stats with
                skip_no_savings := stats.skip_no_savings + 1 } }
          else
            let fs1 : FSv3 := { fs with tmp := some "encoded" }
            if !o.backup_ok then
              { claims := release_claim claims path,
                fs := { fs1 with tmp := none },
                stats := { stats with failed := stats.failed + 1 } }
            else
              let fs2 : FSv3 := { fs1 with src := none, backup := fs1.src }
              if !o.finalize_ok then
                { claims := release_claim claims path, fs := fs2,
                  stats := { stats with failed := stats.failed + 1 } }
              else
                { claims := release_claim claims path,
                  fs := { fs2 with src := fs2.tmp, tmp := none },
                  stats := { stats with compressed := stats.compressed + 1 } }

/-! ## Theorems -/

/-- Claim C7: is_4k(width, height) returns true exactly when
min(width, height) > 1080; in particular is_4k(3840,2160)=true,
is_4k(2160,3840)=true, is_4k(1080,1920)=false, is_4k(2560,1080)=false. -/
theorem is_4k_spec :
    (∀ width height, is_4k width height = true ↔ 1080 < min width height) ∧
    is_4k 3840 2160 = true ∧ is_4k 2160 3840 = true ∧
    is_4k 1080 1920 = false ∧ is_4k 2560 1080 = false := by
  refine ⟨?_, by decide, by decide, by decide, by decide⟩
  intro w h
  by_cases hw : w = 0 <;> by_cases hh : h = 0 <;>
    simp [is_4k, hw, hh]

/-- Claim C7 witness: the landscape 4K example, via the theorem. -/
theorem is_4k_spec_w : is_4k 3840 2160 = true := is_4k_spec.2.1

/-- Claim C8 counterexample: at width 0 and height 5 the video is portrait
in the sense height > width, yet get_scale_filter does not return the
constrain-width form (the zero-width guard in is_portrait fires). -/
theorem scale_filter_zero_width_cx :
    get_scale_filter 0 5 ≠ "scale=1080:-2" ∧ 0 < 5 := by
  exact ⟨by decide, by decide⟩

/-- Claim C8 amended: for every positive width, get_scale_filter returns
the constrain-width form "scale=1080:-2" exactly when height > width, and
the constrain-height form "scale=-2:1080" otherwise. -/
theorem scale_filter_portrait (width height : Nat) (hw : 0 < width) :
    get_scale_filter width height = "scale=1080:-2" ↔ width < height := by
  have hw0 : ¬ width = 0 := Nat.pos_iff_ne_zero.mp hw
  by_cases hh : height = 0
  · subst hh
    simp only [get_scale_filter, is_portrait, hw0]
    norm_num
    exact fun h => absurd h (by decide)
  · by_cases hlt : width < height <;>
      simp [get_scale_filter, is_portrait, hw0, hh, hlt]

/-- Claim C8 witness: a portrait 4K input, via the amended theorem. -/
theorem scale_filter_portrait_w : get_scale_filter 1080 1920 = "scale=1080:-2" :=
  (scale_filter_portrait 1080 1920 (by decide)).mpr (by decide)

/-- Claim C9: release_claim removes the marker for the path, is idempotent
(releasing an already-absent marker is a no-op, not an error), and leaves
every other marker untouched. -/
theorem release_claim_spec (s : ClaimStore) (p : String) :
    is_claimed (release_claim s p) p = false ∧
    release_claim (release_claim s p) p = release_claim s p ∧
    ∀ q, q ≠ p → (q ∈ release_claim s p ↔ q ∈ s) := by
  refine ⟨?_, ?_, ?_⟩
  · simp [is_claimed, release_claim]
  · simp [release_claim, Finset.erase_idem]
  · intro q hq
    simp [release_claim, Finset.mem_erase, hq]

/-- Claim C9 witness: concrete one- and two-marker stores, via the theorem. -/
theorem release_claim_spec_w :
    is_claimed (release_claim (insert "a" ∅) "a") "a" = false ∧
    ("b" ∈ release_claim (insert "a" (insert "b" ∅)) "a" ↔
      "b" ∈ insert "a" (insert "b" (∅ : ClaimStore))) :=
  ⟨(release_claim_spec (insert "a" ∅) "a").1,
   (release_claim_spec (insert "a" (insert "b" ∅)) "a").2.2 "b" (by decide)⟩

/-- Claim C1 counterexample: at input size 20 and output size 19 the output
is exactly 0.95 times the input, so the claim as stated demands rejection
(outputSize ≥ 0.95 × inputSize), yet encode_video with size_gate passes the
gate: the rejection condition savings_pct < 5 is strict. -/
theorem size_gate_boundary_cx :
    (encode_video 20 19 true).passed_size_gate = true ∧
    (95 : ℚ)/100 * 20 ≤ 19 := by
  have hs : savingsPct 20 19 = 5 := by norm_num [savingsPct]
  constructor
  · simp [encode_video, hs, MIN_SAVINGS_PCT]
  · norm_num

/-- Claim C1 amended: for positive input and output sizes, encode_video with
size_gate=True reports passed_size_gate=False exactly when
outputSize > 0.95 × inputSize strictly (equivalently, savings < 5%); an
output of exactly 0.95 × inputSize is accepted. -/
theorem size_gate_strict (input_size output_size : Nat)
    (hi : 0 < input_size) (_ho : 0 < output_size) :
    (encode_video input_size output_size true).passed_size_gate = false ↔
      (95 : ℚ)/100 * input_size < output_size := by
  have hiq : (0 : ℚ) < input_size := by exact_mod_cast hi
  have key : (savingsPct input_size output_size < MIN_SAVINGS_PCT) ↔
      (95 : ℚ)/100 * input_size < output_size := by
    unfold savingsPct MIN_SAVINGS_PCT
    rw [if_pos hi, show (95 : ℚ)/100 * input_size = 19/20 * input_size by ring,
      ← lt_div_iff₀ hiq]
    constructor <;> intro h <;> linarith
  unfold encode_video
  by_cases hgate : savingsPct input_size output_size < MIN_SAVINGS_PCT
  · rw [if_pos (by simp [hgate])]
    simpa using key.mp hgate
  · rw [if_neg (by simp [hgate])]
    exact iff_of_false (by simp) (fun hc => hgate (key.mpr hc))

/-- Claim C1 witness: 96 bytes out of 100 is a 4% saving, rejected. -/
theorem size_gate_strict_w :
    (encode_video 100 96 true).passed_size_gate = false :=
  (size_gate_strict 100 96 (by norm_num) (by norm_num)).mpr (by norm_num)

/-- The recovered list of recover_stale is the stale markers, for either
dry_run flag. -/
lemma recover_stale_fst (cutoff : Int) (b : Bool) (store : List ClaimMarker) :
    (recover_stale cutoff b store).1 = store.filter (isStale cutoff) := by
  induction store with
  | nil => rfl
  | cons m rest ih =>
      by_cases hm : isStale cutoff m <;>
        simp [recover_stale, List.filter_cons, hm, ih]

/-- Without dry_run, exactly the non-stale markers remain. -/
lemma recover_stale_snd_false (cutoff : Int) (store : List ClaimMarker) :
    (recover_stale cutoff false store).2 =
      store.filter (fun m => !isStale cutoff m) := by
  induction store with
  | nil => rfl
  | cons m rest ih =>
      by_cases hm : isStale cutoff m <;>
        simp [recover_stale, List.filter_cons, hm, ih]

/-- With dry_run, the store is unchanged. -/
lemma recover_stale_snd_true (cutoff : Int) (store : List ClaimMarker) :
    (recover_stale cutoff true store).2 = store := by
  induction store with
  | nil => rfl
  | cons m rest ih =>
      by_cases hm : isStale cutoff m <;> simp [recover_stale, hm, ih]

/-- Claim C4: recover_stale removes exactly the markers whose recorded
timestamp is older than the cutoff (now minus maxAge) plus every marker
whose payload fails to parse, regardless of age; younger valid markers are
left untouched; and with dryRun=true it deletes nothing yet returns the
same set it would have removed with dryRun=false. -/
theorem recover_stale_spec (cutoff : Int) (store : List ClaimMarker) :
    (recover_stale cutoff false store).1 = store.filter (isStale cutoff) ∧
    (recover_stale cutoff false store).2 =
      store.filter (fun m => !isStale cutoff m) ∧
    (recover_stale cutoff true store).2 = store ∧
    (recover_stale cutoff true store).1 = (recover_stale cutoff false store).1 ∧
    ∀ m, isStale cutoff m = true ↔
      m.claimed_at = none ∨ ∃ t, m.claimed_at = some t ∧ t < cutoff := by
  refine ⟨recover_stale_fst cutoff false store, recover_stale_snd_false cutoff store,
    recover_stale_snd_true cutoff store, ?_, ?_⟩
  · rw [recover_stale_fst, recover_stale_fst]
  · intro m
    cases hm : m.claimed_at <;> simp [isStale, hm]

/-- Claim C4 witness: a store with a stale, a fresh and a corrupted marker,
via the theorem. -/
theorem recover_stale_spec_w :
    (recover_stale 0 true
        [⟨"f1", some (-5)⟩, ⟨"f2", some 5⟩, ⟨"f3", none⟩]).2 =
      [⟨"f1", some (-5)⟩, ⟨"f2", some 5⟩, ⟨"f3", none⟩] :=
  (recover_stale_spec 0 [⟨"f1", some (-5)⟩, ⟨"f2", some 5⟩, ⟨"f3", none⟩]).2.2.1

/-- A path with a marker keeps its marker across any sequence of claim and
release operations that never releases that path. -/
lemma mem_runOps_of_no_release (p : String) :
    ∀ (ops : List ClaimOp) (s : ClaimStore),
      ClaimOp.releaseOf p ∉ ops → p ∈ s → p ∈ runOps s ops := by
  intro ops
  induction ops with
  | nil => intro s _ hp; exact hp
  | cons op rest ih =>
      intro s hops hp
      simp only [runOps]
      apply ih
      · intro h; exact hops (List.mem_cons_of_mem _ h)
      · cases op with
        | claimOf q =>
            by_cases hqs : q ∈ s
            · simpa [runOp, claim_file, hqs] using hp
            · simp only [runOp, claim_file, hqs, if_neg]
              exact Finset.mem_insert_of_mem hp
        | releaseOf q =>
            have hq : ¬ q = p := by
              intro e; subst e; exact hops (List.mem_cons_self _ _)
            simp only [runOp, release_claim, Finset.mem_erase]
            exact ⟨fun e => hq e.symm, hp⟩

/-- Claim C3: on a store with no marker for p, the first of two racing
claim(p) calls returns true and the second false (exactly one wins under
either interleaving, the two calls being identical); every subsequent
claim(p) returns false across any operations that do not release p; and
after release(p) a claim(p) returns true again. -/
theorem claim_exclusive (p : String) (s : ClaimStore) (hp : p ∉ s) :
    (claim_file s p).1 = true ∧
    (claim_file (claim_file s p).2 p).1 = false ∧
    (∀ ops : List ClaimOp, ClaimOp.releaseOf p ∉ ops →
      (claim_file (runOps (claim_file s p).2 ops) p).1 = false) ∧
    (claim_file (release_claim (claim_file s p).2 p) p).1 = true := by
  have h2 : (claim_file s p).2 = insert p s := by simp [claim_file, hp]
  refine ⟨by simp [claim_file, hp], ?_, ?_, ?_⟩
  · rw [h2]; simp [claim_file]
  · intro ops hops
    rw [h2]
    have hmem : p ∈ runOps (insert p s) ops :=
      mem_runOps_of_no_release p ops _ hops (Finset.mem_insert_self p s)
    simp [claim_file, hmem]
  · rw [h2]; simp [claim_file, release_claim, Finset.mem_erase]

/-- Claim C3 witness: path a on the empty store, with another actor
claiming path b in between, via the theorem. -/
theorem claim_exclusive_w :
    (claim_file (∅ : ClaimStore) "a").1 = true ∧
    (claim_file (claim_file (∅ : ClaimStore) "a").2 "a").1 = false ∧
    (claim_file (runOps (claim_file (∅ : ClaimStore) "a").2
      [ClaimOp.claimOf "b"]) "a").1 = false ∧
    (claim_file (release_claim (claim_file (∅ : ClaimStore) "a").2 "a") "a").1
      = true := by
  obtain ⟨h1, h2, h3, h4⟩ := claim_exclusive "a" ∅ (by decide)
  exact ⟨h1, h2, h3 [ClaimOp.claimOf "b"] (by decide), h4⟩

/-- Claim C2 amended: in the v2 (database-backed) orchestrator, a file whose
encode completes but fails the size gate transitions to skipped_no_savings
without releasing its claim: the marker still exists afterwards and every
later claim(path) call from any machine returns false as long as nobody
releases the path.  The v3 orchestrator instead renames the file to a _skip
name and releases the claim (see the counterexample). -/
theorem v2_no_savings_retains_claim (claims : ClaimStore) (stats : Stats)
    (fs : FS) (path : String) (o : ItemOracle) (hp : path ∉ claims)
    (hfe : o.file_exists = true) (hff : o.ffmpeg_ok = true)
    (hgate : (encode_video o.input_size o.output_size true).passed_size_gate
      = false) :
    (process_item_v2 claims stats fs path o).dbLog =
      [.updateStatus "claimed", .logEvent "claimed", .updateStatus "encoding",
       .logEvent "encoding_started", .updateStatus "skipped_no_savings",
       .logEvent "skipped_no_savings"] ∧
    is_claimed (process_item_v2 claims stats fs path o).claims path = true ∧
    (∀ ops : List ClaimOp, ClaimOp.releaseOf path ∉ ops →
      (claim_file (runOps (process_item_v2 claims stats fs path o).claims ops)
        path).1 = false) ∧
    (process_item_v2 claims stats fs path o).stats.skipped_no_savings =
      stats.skipped_no_savings + 1 := by
  have hres : (process_item_v2 claims stats fs path o).claims = insert path claims ∧
      (process_item_v2 claims stats fs path o).dbLog =
        [.updateStatus "claimed", .logEvent "claimed", .updateStatus "encoding",
         .logEvent "encoding_started", .updateStatus "skipped_no_savings",
         .logEvent "skipped_no_savings"] ∧
      (process_item_v2 claims stats fs path o).stats.skipped_no_savings =
        stats.skipped_no_savings + 1 := by
    simp [process_item_v2, claim_file, hp, hfe, hff, hgate]
  refine ⟨hres.2.1, ?_, ?_, hres.2.2⟩
  · rw [hres.1]; simp [is_claimed]
  · intro ops hops
    rw [hres.1]
    have hmem : path ∈ runOps (insert path claims) ops :=
      mem_runOps_of_no_release path ops _ hops (Finset.mem_insert_self path claims)
    simp [claim_file, hmem]

/-- Claim C2 witness: a 100-byte input whose encode produces 96 bytes (4%
saving) fails the gate and the claim marker survives, via the theorem. -/
theorem v2_no_savings_retains_claim_w :
    is_claimed (process_item_v2 ∅ ⟨0, 0, 0, 0⟩ ⟨some "orig", none, none⟩ "v"
      ⟨true, true, 100, 96, true, true⟩).claims "v" = true := by
  have h4 : savingsPct 100 96 = 4 := by norm_num [savingsPct]
  have hgate : (encode_video 100 96 true).passed_size_gate = false := by
    norm_num [encode_video, h4, MIN_SAVINGS_PCT]
  exact (v2_no_savings_retains_claim ∅ ⟨0, 0, 0, 0⟩ ⟨some "orig", none, none⟩
    "v" ⟨true, true, 100, 96, true, true⟩ (by decide) rfl rfl hgate).2.1

/-- The concrete v3 scenario of the C2 counterexample: pending H.264 MP4
at 3 Mbps decided under the v3 strategy, unclaimed store, encode completes
with 96 bytes out of 100 (fails the 5% size gate), rename succeeds. -/
def v3_no_savings_run : ItemResultV3 :=
  process_item_v3 ∅ ⟨0, 0, 0, 0, 0, 0⟩ ⟨some "orig", none, none, none, none⟩
    "v" (decide_action "h264" 3000000 1920 1080 false ".mp4")
    ⟨true, false, true, 100, 96, true, true, true⟩

/-- Claim C2 counterexample: in the v3 orchestrator a file that completes
its encode but fails the size gate is counted as skip_no_savings and its
claim IS released: the marker is gone and a later claim(path) call returns
true, contradicting the claim that it returns false on every machine. -/
theorem v3_no_savings_releases_claim_cx :
    is_claimed v3_no_savings_run.claims "v" = false ∧
    (claim_file v3_no_savings_run.claims "v").1 = true ∧
    v3_no_savings_run.stats.skip_no_savings = 1 := by
  have hb : (2 : ℚ) ≤ 3000000 / 1000000 := by norm_num
  have hm : (str_lower ".mp4" == ".mp4") = true := by decide
  have hc : (str_lower "h264" == "h264") = true := by decide
  have hk : is_4k 1920 1080 = false := by decide
  have hact : (decide_action "h264" 3000000 1920 1080 false ".mp4").action
      = "encode" := by
    simp [decide_action, hm, hc, hb, hk]
  have hsg : (decide_action "h264" 3000000 1920 1080 false ".mp4").size_gate
      = true := by
    simp [decide_action, hm, hc, hb, hk]
  have hsw : starts_with "skip_" "encode" = false := by decide
  have hrm : ("encode" == "remux") = false := by decide
  have h4 : savingsPct 100 96 = 4 := by norm_num [savingsPct]
  have hgate : (encode_video 100 96 true).passed_size_gate = false := by
    norm_num [encode_video, h4, MIN_SAVINGS_PCT]
  have hrun : v3_no_savings_run.claims = release_claim (insert "v" ∅) "v" ∧
      v3_no_savings_run.stats.skip_no_savings = 1 := by
    unfold v3_no_savings_run
    simp [process_item_v3, hact, hsg, hsw, hrm, hgate, claim_file]
  refine ⟨?_, ?_, hrun.2⟩
  · rw [hrun.1]; simp [is_claimed, release_claim]
  · rw [hrun.1]; simp [claim_file, release_claim]

/-- Claim C6: when the claim acquisition fails (path already claimed), the
v2 worker only increments its local already_claimed counter: no ledger
mutation, no trace beyond the failed claim try, claims and filesystem
untouched; likewise the v3 worker (for its claiming actions, remux and
encode) only increments its local counter and touches nothing else. -/
theorem already_claimed_soft (claims : ClaimStore) (stats : Stats) (fs : FS)
    (path : String) (o : ItemOracle) (claims3 : ClaimStore) (stats3 : StatsV3)
    (fs3 : FSv3) (path3 : String) (d : Decision) (o3 : ItemOracleV3)
    (hp : path ∈ claims) (hp3 : path3 ∈ claims3)
    (hd : starts_with "skip_" d.action = false) :
    (process_item_v2 claims stats fs path o).dbLog = [] ∧
    (process_item_v2 claims stats fs path o).stats =
      { stats with already_claimed := stats.already_claimed + 1 } ∧
    (process_item_v2 claims stats fs path o).claims = claims ∧
    (process_item_v2 claims stats fs path o).fs = fs ∧
    (process_item_v2 claims stats fs path o).trace = [.claimTry false] ∧
    (process_item_v3 claims3 stats3 fs3 path3 d o3).stats =
      { stats3 with already_claimed := stats3.already_claimed + 1 } ∧
    (process_item_v3 claims3 stats3 fs3 path3 d o3).claims = claims3 ∧
    (process_item_v3 claims3 stats3 fs3 path3 d o3).fs = fs3 := by
  have h2 : claim_file claims path = (false, claims) := by
    simp [claim_file, hp]
  have h3 : claim_file claims3 path3 = (false, claims3) := by
    simp [claim_file, hp3]
  refine ⟨?_, ?_, ?_, ?_, ?_, ?_, ?_, ?_⟩ <;>
    simp [process_item_v2, process_item_v3, h2, h3, hd]

/-- Claim C6 witness: concrete already-claimed paths on both orchestrators,
via the theorem. -/
theorem already_claimed_soft_w :
    (process_item_v2 (insert "v" ∅) ⟨0, 0, 0, 0⟩ ⟨none, none, none⟩ "v"
      ⟨true, true, 0, 0, true, true⟩).dbLog = [] ∧
    (process_item_v3 (insert "w" ∅) ⟨0, 0, 0, 0, 0, 0⟩
      ⟨none, none, none, none, none⟩ "w" ⟨"encode", some 28, false, true, "r"⟩
      ⟨true, false, true, 0, 0, true, true, true⟩).claims = insert "w" ∅ := by
  obtain ⟨a, _, _, _, _, _, g, _⟩ := already_claimed_soft (insert "v" ∅)
    ⟨0, 0, 0, 0⟩ ⟨none, none, none⟩ "v" ⟨true, true, 0, 0, true, true⟩
    (insert "w" ∅) ⟨0, 0, 0, 0, 0, 0⟩ ⟨none, none, none, none, none⟩ "w"
    ⟨"encode", some 28, false, true, "r"⟩ ⟨true, false, true, 0, 0, true, true, true⟩
    (by decide) (by decide) (by decide)
  exact ⟨a, g⟩

/-- Claim C5: in every per-file v2 run, no rename of the temporary artifact
onto the final path occurs before a successful backup move of the original
(scanning the step trace left to right); and whenever the backup move
fails, no finalize step occurs at all, the source slot and the backup slot
are unchanged and only the temporary artifact is removed. -/
theorem v2_backup_precedes_finalize (claims : ClaimStore) (stats : Stats)
    (fs : FS) (path : String) (o : ItemOracle) :
    precededBy isFinalizeStep isBackupOkStep
      (process_item_v2 claims stats fs path o).trace = true ∧
    (Step.backupMove false ∈ (process_item_v2 claims stats fs path o).trace →
      (process_item_v2 claims stats fs path o).trace.any isFinalizeStep = false ∧
      (process_item_v2 claims stats fs path o).fs.src = fs.src ∧
      (process_item_v2 claims stats fs path o).fs.backup = fs.backup ∧
      (process_item_v2 claims stats fs path o).fs.tmp = none) := by
  obtain ⟨fe, ff, isz, osz, bo, fo⟩ := o
  by_cases hp : path ∈ claims <;>
    cases fe <;> cases ff <;>
    cases hgate : (encode_video isz osz true).passed_size_gate <;>
    cases bo <;> cases fo <;>
    constructor <;>
    simp [process_item_v2, claim_file, hp, hgate, precededBy,
      isFinalizeStep, isBackupOkStep]

/-- Claim C5 witness: a run whose backup move fails leaves the original
content in place at the source path, via the theorem. -/
theorem v2_backup_precedes_finalize_w :
    (process_item_v2 ∅ ⟨0, 0, 0, 0⟩ ⟨some "orig", none, none⟩ "v"
      ⟨true, true, 100, 50, false, true⟩).fs.src = some "orig" := by
  have h50 : savingsPct 100 50 = 50 := by norm_num [savingsPct]
  have hpass : (encode_video 100 50 true).passed_size_gate = true := by
    norm_num [encode_video, h50, MIN_SAVINGS_PCT]
  have hmem : Step.backupMove false ∈
      (process_item_v2 ∅ ⟨0, 0, 0, 0⟩ ⟨some "orig", none, none⟩ "v"
        ⟨true, true, 100, 50, false, true⟩).trace := by
    simp [process_item_v2, claim_file, hpass]
  exact ((v2_backup_precedes_finalize ∅ ⟨0, 0, 0, 0⟩ ⟨some "orig", none, none⟩
    "v" ⟨true, true, 100, 50, false, true⟩).2 hmem).2.1

/-- Claim C10: every decision returned by decide_action has a target
quality exactly when its action is encode; requires the size gate only for
encodes of files whose (lowercased) container extension is .mp4; and sets
the 1080p downscale flag only for encodes of 4K material. -/
theorem decide_action_invariants (codec : String) (bitrate width height : Nat)
    (has_v2_tag : Bool) (ext : String) :
    ((decide_action codec bitrate width height has_v2_tag ext).target_cq ≠ none
      ↔ (decide_action codec bitrate width height has_v2_tag ext).action
        = "encode") ∧
    ((decide_action codec bitrate width height has_v2_tag ext).size_gate = true
      → (decide_action codec bitrate width height has_v2_tag ext).action
          = "encode" ∧ str_lower ext = ".mp4") ∧
    ((decide_action codec bitrate width height has_v2_tag ext).downscale_1080p
        = true
      → (decide_action codec bitrate width height has_v2_tag ext).action
          = "encode" ∧ is_4k width height = true) := by
  simp only [decide_action]
  split_ifs <;> simp_all

/-- Claim C10 witness: a gated H.264 MP4 encode decision, via the theorem. -/
theorem decide_action_invariants_w :
    (decide_action "h264" 3000000 1920 1080 false ".mp4").action = "encode" ∧
    str_lower ".mp4" = ".mp4" := by
  have hb : (2 : ℚ) ≤ 3000000 / 1000000 := by norm_num
  have hm : (str_lower ".mp4" == ".mp4") = true := by decide
  have hc : (str_lower "h264" == "h264") = true := by decide
  have hk : is_4k 1920 1080 = false := by decide
  have hsg : (decide_action "h264" 3000000 1920 1080 false ".mp4").size_gate
      = true := by
    simp [decide_action, hm, hc, hb, hk]
  exact (decide_action_invariants "h264" 3000000 1920 1080 false ".mp4").2.1 hsg

end Compress
